import Mathlib

/-! ## Definitions: embedding of the engine, reference definitions, examples -/

/-- The `rhVariants` sub-dict: `donor.get('rhVariants', {}).get(k)` is a
truthiness test, so each antigen is a `Bool` and a missing dict is the
all-`false` record. -/
structure RhMap where
  C : Bool := false
  c : Bool := false
  E : Bool := false
  e : Bool := false
deriving DecidableEq, Repr

/-- A donor record (the dict keys the engine reads). -/
structure Donor where
  id : Option String := none
  donorId : Option String := none
  donorName : Option String := none
  bloodType : Option String := none
  age : Option ℚ := none
  gender : Option String := none
  weight : Option ℚ := none
  hemoglobinLevel : Option ℚ := none
  totalDonations : Option ℚ := none
  willingForEmergency : Bool := false
  rhVariants : RhMap := {}
  kell : Bool := false
  duffy : Bool := false
  kidd : Bool := false
  hivStatus : Bool := false
  hepatitisB : Bool := false
  hepatitisC : Bool := false
  htlv : Bool := false
  ivDrugUse : Bool := false
  recentColdFlu : Bool := false
  recentTattoo : Bool := false
  recentSurgery : Bool := false
  pregnant : Bool := false
  recentVaccination : Bool := false
  recentTravel : Bool := false
  location : Option String := none
  contactNumber : Option String := none
  availability : Option String := none
deriving DecidableEq, Repr

/-- A recipient-request record (the dict keys the engine reads). -/
structure Recipient where
  id : Option String := none
  userName : Option String := none
  bloodType : Option String := none
  age : Option ℚ := none
  gender : Option String := none
  patientWeight : Option ℚ := none
  units : Option ℚ := none
  urgency : Option String := none
  rhVariants : RhMap := {}
  kell : Bool := false
  duffy : Bool := false
  kidd : Bool := false
  irradiatedBlood : Bool := false
  cmvNegative : Bool := false
  washedCells : Bool := false
  leukocyteReduced : Bool := false
deriving DecidableEq, Repr

deriving instance DecidableEq for Except

/-- Python `x in l` where `x` may be `None` (a missing key): `None` is never a
member of a list of strings. -/
def optMem (x : Option String) (l : List String) : Bool :=
  match x with
  | some s => l.contains s
  | none => false

/-- `BLOOD_COMPATIBILITY`: per donor type, the recipient types it can serve
(dict insertion order preserved). -/
def BLOOD_COMPATIBILITY : List (String × List String) :=
  [ ("O-", ["O-", "O+", "A-", "A+", "B-", "B+", "AB-", "AB+"]),
    ("O+", ["O+", "A+", "B+", "AB+"]),
    ("A-", ["A-", "A+", "AB-", "AB+"]),
    ("A+", ["A+", "AB+"]),
    ("B-", ["B-", "B+", "AB-", "AB+"]),
    ("B+", ["B+", "AB+"]),
    ("AB-", ["AB-", "AB+"]),
    ("AB+", ["AB+"]) ]

/-- `get_compatible_donor_types`: all donor types whose `can_donate_to` list
contains the recipient type, in table order. -/
def get_compatible_donor_types (recipient_blood_type : String) : List String :=
  (BLOOD_COMPATIBILITY.filter
    (fun p => p.2.contains recipient_blood_type)).map (fun p => p.1)

/-- `check_hard_stops`: permanent-deferral reasons in checklist order. -/
def check_hard_stops (donor : Donor) : List String :=
  (if donor.hivStatus then ["HIV positive"] else []) ++
  (if donor.hepatitisB then ["Hepatitis B"] else []) ++
  (if donor.hepatitisC then ["Hepatitis C"] else []) ++
  (if donor.htlv then ["HTLV positive"] else []) ++
  (if donor.ivDrugUse then ["IV drug use history"] else [])

/-- `check_temporary_deferrals`: temporary-deferral warnings in checklist
order. -/
def check_temporary_deferrals (donor : Donor) : List String :=
  (if donor.recentColdFlu then ["Recent cold/flu"] else []) ++
  (if donor.recentTattoo then ["Recent tattoo"] else []) ++
  (if donor.recentSurgery then ["Recent surgery"] else []) ++
  (if donor.pregnant then ["Pregnant"] else []) ++
  (if donor.recentVaccination then ["Recent vaccination"] else []) ++
  (if donor.recentTravel then ["Recent travel"] else [])

/-- The fixed 8-element blood-type ordering used by the feature encoder. -/
def blood_types : List String :=
  ["A+", "A-", "B+", "B-", "AB+", "AB-", "O+", "O-"]

/-- Blood-type feature:
`blood_types.index(x.get('bloodType', 'O+')) if x.get('bloodType') in blood_types else 0`. -/
def bloodTypeFeature (bt : Option String) : ℚ :=
  if optMem bt blood_types then (blood_types.indexOf (bt.getD "O+") : ℚ) else 0

/-- The fixed urgency ordering used by the feature encoder. -/
def urgency_levels : List String := ["standard", "medium", "high", "critical"]

/-- `['standard','medium','high','critical'].index(recipient.get('urgency','standard'))`:
raises `ValueError` (here `Except.error`) when the urgency value is present but
not one of the four levels. -/
def urgencyIndex (u : Option String) : Except Unit ℚ :=
  let s := u.getD "standard"
  if s ∈ urgency_levels then .ok (urgency_levels.indexOf s : ℚ) else .error ()

/-- The 14 donor-derived entries of the feature dict, in insertion order. -/
def donorFeatures (d : Donor) : List ℚ :=
  [ bloodTypeFeature d.bloodType,
    d.age.getD 30,
    if d.gender = some "Male" then 1 else 0,
    d.weight.getD 70,
    d.hemoglobinLevel.getD 14,
    d.totalDonations.getD 0,
    if d.willingForEmergency then 1 else 0,
    if d.rhVariants.C then 1 else 0,
    if d.rhVariants.c then 1 else 0,
    if d.rhVariants.E then 1 else 0,
    if d.rhVariants.e then 1 else 0,
    if d.kell then 1 else 0,
    if d.duffy then 1 else 0,
    if d.kidd then 1 else 0 ]

/-- The 17 recipient-derived entries of the feature dict, in insertion order
(`uidx` is the already-computed urgency index). -/
def recipientFeatures (r : Recipient) (uidx : ℚ) : List ℚ :=
  [ bloodTypeFeature r.bloodType,
    r.age.getD 30,
    if r.gender = some "Male" then 1 else 0,
    r.patientWeight.getD 70,
    r.units.getD 1,
    uidx,
    if r.rhVariants.C then 1 else 0,
    if r.rhVariants.c then 1 else 0,
    if r.rhVariants.E then 1 else 0,
    if r.rhVariants.e then 1 else 0,
    if r.kell then 1 else 0,
    if r.duffy then 1 else 0,
    if r.kidd then 1 else 0,
    if r.irradiatedBlood then 1 else 0,
    if r.cmvNegative then 1 else 0,
    if r.washedCells then 1 else 0,
    if r.leukocyteReduced then 1 else 0 ]

/-- `prepare_features`: the feature dict's values in insertion order (donor
block then recipient block).  The only statement in it that can raise is the
urgency `index` call. -/
def prepare_features (donor : Donor) (recipient : Recipient) :
    Except Unit (List ℚ) :=
  match urgencyIndex recipient.urgency with
  | .error e => .error e
  | .ok u => .ok (donorFeatures donor ++ recipientFeatures recipient u)

/-- `calculate_rule_based_score`: sequential `score += bonus` updates starting
at 50, then `min(100, score)`. -/
def calculate_rule_based_score (donor : Donor) (recipient : Recipient) : ℚ :=
  min 100
    (50 +
      (if donor.bloodType = recipient.bloodType then 20 else 0) +
      (if recipient.rhVariants.C && donor.rhVariants.C then 3 else 0) +
      (if recipient.rhVariants.c && donor.rhVariants.c then 3 else 0) +
      (if recipient.rhVariants.E && donor.rhVariants.E then 3 else 0) +
      (if recipient.rhVariants.e && donor.rhVariants.e then 3 else 0) +
      (if recipient.kell && donor.kell then 3 else 0) +
      (if recipient.duffy && donor.duffy then 3 else 0) +
      (if recipient.kidd && donor.kidd then 3 else 0) +
      (if donor.totalDonations.getD 0 > 5 then 5 else 0) +
      (if recipient.urgency = some "critical" && donor.willingForEmergency
        then 10 else 0))

/-- The loaded learned model, as seen through the duck-typed calls the engine
makes.  `probaModel f` is a model with a `predict_proba` attribute: `f`
returns the matrix `model.predict_proba(features)`, or raises.  `predictModel
f` has only `predict`: `f` returns the vector `model.predict(features)`, or
raises. -/
inductive ModelBehavior where
  | probaModel (f : List ℚ → Except Unit (List (List ℚ)))
  | predictModel (f : List ℚ → Except Unit (List ℚ))

/-- The learned-model invocation shared verbatim by both handlers:
`proba = model.predict_proba(features)[0]` then
`proba[1]*100 if len(proba) > 1 else proba[0]*100`, or
`prediction = model.predict(features)[0]` then
`prediction*100 if prediction <= 1 else prediction`.
Out-of-range indexing raises, embedded as `Except.error`. -/
def mlScore (m : ModelBehavior) (features : List ℚ) : Except Unit ℚ :=
  match m with
  | .probaModel f =>
    match f features with
    | .error e => .error e
    | .ok rows =>
      match rows with
      | [] => .error ()
      | proba :: _ =>
        if h : 1 < proba.length then .ok (proba.get ⟨1, h⟩ * 100)
        else
          match proba with
          | [] => .error ()
          | p :: _ => .ok (p * 100)
  | .predictModel f =>
    match f features with
    | .error e => .error e
    | .ok preds =>
      match preds with
      | [] => .error ()
      | p :: _ => .ok (if p ≤ 1 then p * 100 else p)

/-- Python `round` to an integer: round-half-to-even. -/
def round_half_even (q : ℚ) : ℤ :=
  if q - (⌊q⌋ : ℚ) < 1 / 2 then ⌊q⌋
  else if 1 / 2 < q - (⌊q⌋ : ℚ) then ⌊q⌋ + 1
  else if ⌊q⌋ % 2 = 0 then ⌊q⌋ else ⌊q⌋ + 1

/-- Python `round(q, 1)`. -/
def round1 (q : ℚ) : ℚ := (round_half_even (q * 10) : ℚ) / 10

/-- Python `x or y` on two optional strings: first truthy value (an empty
string is falsy). -/
def pyOr (x y : Option String) : Option String :=
  match x with
  | some s => if s = "" then y else some s
  | none => y

/-- Response of the `/predict` handler, minus transport.  The incompatible /
hard-stop replies carry only `reason`; the success reply carries `warnings`
and `model_used`. -/
structure PredictResponse where
  compatible : Bool
  score : ℚ
  reason : Option String := none
  warnings : Option (List String) := none
  model_used : Option Bool := none
deriving DecidableEq, Repr

/-- Scoring inside the `/predict` handler (lines 158-175).  With a model
loaded, `prepare_features` runs OUTSIDE the inner `try`, so its exception
escapes to the request-level handler (`Except.error`); only a failure of the
model invocation itself falls back to the rule-based score. -/
def predictScore (model : Option ModelBehavior) (donor : Donor)
    (recipient : Recipient) : Except Unit ℚ :=
  match model with
  | none => .ok (calculate_rule_based_score donor recipient)
  | some mb =>
    match prepare_features donor recipient with
    | .error e => .error e
    | .ok features =>
      .ok (match mlScore mb features with
           | .ok s => s
           | .error _ => calculate_rule_based_score donor recipient)

/-- The `/predict` handler (`scorePair`), minus transport: blood-type filter,
hard-stop filter, scoring with `min(100, max(0, score))` clamp, temporary
deferral warnings.  `Except.error` is the request-level 500 response. -/
def predict (model : Option ModelBehavior) (donor : Donor)
    (recipient : Recipient) : Except Unit PredictResponse :=
  if ¬ optMem donor.bloodType
      (get_compatible_donor_types (recipient.bloodType.getD "")) then
    .ok { compatible := false, score := 0,
          reason := some "Blood type incompatible" }
  else
    if check_hard_stops donor ≠ [] then
      .ok { compatible := false, score := 0,
            reason := some ("Permanent deferral: " ++
              String.intercalate ", " (check_hard_stops donor)) }
    else
      match predictScore model donor recipient with
      | .error e => .error e
      | .ok score =>
        .ok { compatible := true, score := min 100 (max 0 score),
              warnings := some (check_temporary_deferrals donor),
              model_used := some model.isSome }

/-- Per-donor scoring inside the `/match` loop (lines 252-273).  Here BOTH a
`prepare_features` failure (outer per-donor `try`) and a model-invocation
failure (inner `try`) fall back to the rule-based score, so the result is
total. -/
def batchScore (model : Option ModelBehavior) (donor : Donor)
    (recipient : Recipient) : ℚ :=
  match model with
  | none => calculate_rule_based_score donor recipient
  | some mb =>
    match prepare_features donor recipient with
    | .error _ => calculate_rule_based_score donor recipient
    | .ok features =>
      match mlScore mb features with
      | .error _ => calculate_rule_based_score donor recipient
      | .ok s => s

/-- One entry of the `matches` list built by the `/match` handler. -/
structure MatchResult where
  donorId : Option String
  donorName : String
  donorBloodType : Option String
  donorLocation : String
  donorContact : String
  donorAvailability : String
  compatibilityScore : ℚ
  priority : String
  isEligible : Bool
  warnings : List String
  matchReasons : List String
deriving DecidableEq, Repr

/-- Python renders `None` as the string `"None"` inside an f-string. -/
def pyStr (x : Option String) : String := x.getD "None"

/-- The body of the `/match` loop for one donor: `none` when the donor is
skipped (blood-type incompatible or hard-stopped), otherwise the built
`MatchResult`. -/
def matchEntry (model : Option ModelBehavior) (recipient : Recipient)
    (compatible_types : List String) (donor : Donor) : Option MatchResult :=
  if ¬ optMem donor.bloodType compatible_types then none
  else if check_hard_stops donor ≠ [] then none
  else
    let score := batchScore model donor recipient
    let warnings := check_temporary_deferrals donor
    let priority :=
      if score ≥ 80 then "high" else if score ≥ 50 then "medium" else "low"
    some
      { donorId := pyOr donor.id donor.donorId,
        donorName := donor.donorName.getD "Anonymous",
        donorBloodType := donor.bloodType,
        donorLocation := donor.location.getD "Unknown",
        donorContact := donor.contactNumber.getD "N/A",
        donorAvailability := donor.availability.getD "N/A",
        compatibilityScore := round1 score,
        priority := priority,
        isEligible := warnings = [],
        warnings := warnings,
        matchReasons :=
          ["Blood type " ++ pyStr donor.bloodType ++ " compatible"] }

/-- An element of the `availableDonors` list: either a mapping (a parsed donor
record) or a value that is not a mapping, on which any `donor.get(...)` raises
`AttributeError`. -/
inductive RawDonor where
  | record (d : Donor)
  | malformed
deriving DecidableEq, Repr

/-- The `/match` loop over the donor list, in input order.  A malformed list
element raises at `donor.get('bloodType')`; nothing catches it below the
request boundary, so the whole loop result is an error. -/
def processDonors (model : Option ModelBehavior) (recipient : Recipient)
    (compatible_types : List String) :
    List RawDonor → Except Unit (List MatchResult)
  | [] => .ok []
  | .malformed :: _ => .error ()
  | .record d :: rest =>
    match matchEntry model recipient compatible_types d with
    | none => processDonors model recipient compatible_types rest
    | some m =>
      match processDonors model recipient compatible_types rest with
      | .error e => .error e
      | .ok tail => .ok (m :: tail)

/-- Stable insertion of a match into a list sorted by descending
`compatibilityScore`: the inserted element comes from earlier in the input, so
it goes before any element with an equal score. -/
def insertDesc (m : MatchResult) : List MatchResult → List MatchResult
  | [] => [m]
  | x :: xs =>
    if x.compatibilityScore ≤ m.compatibilityScore then m :: x :: xs
    else x :: insertDesc m xs

/-- `matches.sort(key=..., reverse=True)`: Python's sort is stable, and with
`reverse=True` ties still keep input order; a stable descending insertion sort
computes the same (unique) stably-sorted permutation. -/
def sortDesc : List MatchResult → List MatchResult
  | [] => []
  | x :: xs => insertDesc x (sortDesc xs)

/-- The `/match` handler's response (`response_data`), minus transport.
`timestamp` is `str(np.datetime64('now'))`, the wall-clock instant of the
call, passed in explicitly here. -/
structure MatchResponse where
  requestId : Option String
  recipientName : Option String
  bloodTypeNeeded : Option String
  urgency : Option String
  «matches» : List MatchResult
  totalMatchesFound : Nat
  modelUsed : Bool
  timestamp : String
deriving DecidableEq, Repr

/-- The `/match` handler (`rankMatches`), minus transport.  `now` is the
wall-clock reading taken while building the response.  `Except.error` is the
request-level 500 response. -/
def match_donors (model : Option ModelBehavior) (now : String)
    (recipient : Recipient) (donors : List RawDonor) :
    Except Unit MatchResponse :=
  match processDonors model recipient
      (get_compatible_donor_types (recipient.bloodType.getD "")) donors with
  | .error e => .error e
  | .ok ms =>
    .ok { requestId := recipient.id,
          recipientName := recipient.userName,
          bloodTypeNeeded := recipient.bloodType,
          urgency := recipient.urgency,
          «matches» := sortDesc ms,
          totalMatchesFound := (sortDesc ms).length,
          modelUsed := model.isSome,
          timestamp := now }

/-- The 8 recognized blood-type values, as listed in the spec's data model. -/
def eight_blood_types : List String :=
  ["O-", "O+", "A-", "A+", "B-", "B+", "AB-", "AB+"]

/-- Reference definition following the spec's words: the ABO/Rh antigen
content (A antigen, B antigen, RhD positive) of each of the 8 blood types;
`none` for an unrecognized value. -/
def spec_parseABORh (s : String) : Option (Bool × Bool × Bool) :=
  if s = "O-" then some (false, false, false)
  else if s = "O+" then some (false, false, true)
  else if s = "A-" then some (true, false, false)
  else if s = "A+" then some (true, false, true)
  else if s = "B-" then some (false, true, false)
  else if s = "B+" then some (false, true, true)
  else if s = "AB-" then some (true, true, false)
  else if s = "AB+" then some (true, true, true)
  else none

/-- Reference definition following the spec's words: classical ABO/Rh rules
permit a donation exactly when every antigen carried by the donor is also
carried by the recipient. -/
def spec_classicalPermits (donorType recipientType : String) : Bool :=
  match spec_parseABORh donorType, spec_parseABORh recipientType with
  | some (dA, dB, dRh), some (rA, rB, rRh) =>
    (!dA || rA) && (!dB || rB) && (!dRh || rRh)
  | _, _ => false

/-- Reference definition following the spec's words: rule-based score = 50
base, +20 exact blood-type match, +3 per antigen among {C,c,E,e} present in
both, +3 each for kell/duffy/kidd present in both, +5 if donor has more than
5 prior donations, +10 if recipient urgency is critical and donor is willing
for emergency donation, clamped to [0,100]. -/
def spec_rule_based_score (donor : Donor) (recipient : Recipient) : ℚ :=
  max 0 (min 100
    (50 +
      (if donor.bloodType = recipient.bloodType then 20 else 0) +
      (if recipient.rhVariants.C && donor.rhVariants.C then 3 else 0) +
      (if recipient.rhVariants.c && donor.rhVariants.c then 3 else 0) +
      (if recipient.rhVariants.E && donor.rhVariants.E then 3 else 0) +
      (if recipient.rhVariants.e && donor.rhVariants.e then 3 else 0) +
      (if recipient.kell && donor.kell then 3 else 0) +
      (if recipient.duffy && donor.duffy then 3 else 0) +
      (if recipient.kidd && donor.kidd then 3 else 0) +
      (if donor.totalDonations.getD 0 > 5 then 5 else 0) +
      (if recipient.urgency = some "critical" && donor.willingForEmergency
        then 10 else 0)))

/-- A donor has a permanent-deferral flag set. -/
def hasHardStop (d : Donor) : Bool :=
  d.hivStatus || d.hepatitisB || d.hepatitisC || d.htlv || d.ivDrugUse

/-- Input donors for the C5 witness: two tied rule-based scores (O-, O+)
around a higher exact-match score (A+). -/
def donorsC5 : List RawDonor :=
  [RawDonor.record { bloodType := some "O-" },
   RawDonor.record { bloodType := some "A+" },
   RawDonor.record { bloodType := some "O+" }]

def entryC5 (bt : String) (score : ℚ) : MatchResult :=
  { donorId := none,
    donorName := "Anonymous",
    donorBloodType := some bt,
    donorLocation := "Unknown",
    donorContact := "N/A",
    donorAvailability := "N/A",
    compatibilityScore := score,
    priority := "medium",
    isEligible := true,
    warnings := [],
    matchReasons := ["Blood type " ++ bt ++ " compatible"] }

/-- The in-input-order entry list for the C5 witness. -/
def preC5 : List MatchResult :=
  [entryC5 "O-" 50, entryC5 "A+" 70, entryC5 "O+" 50]

/-- The response for the C5 witness. -/
def respC5 : MatchResponse :=
  { requestId := none,
    recipientName := none,
    bloodTypeNeeded := some "A+",
    urgency := none,
    «matches» := [entryC5 "A+" 70, entryC5 "O-" 50, entryC5 "O+" 50],
    totalMatchesFound := 3,
    modelUsed := false,
    timestamp := "T" }

/-- The single compatible, deferral-free donor used by the C9 example. -/
def donorsC9 : List RawDonor := [RawDonor.record { bloodType := some "A+" }]

/-- The response of the C9 example, parameterized by the wall-clock value. -/
def respC9 (ts : String) : MatchResponse :=
  { requestId := none,
    recipientName := none,
    bloodTypeNeeded := some "A+",
    urgency := none,
    «matches» := [entryC5 "A+" 70],
    totalMatchesFound := 1,
    modelUsed := false,
    timestamp := ts }

/-- A loaded model without `predict_proba` whose `predict` returns the raw
regression value 150 for any input. -/
def modelC3 : ModelBehavior := .predictModel (fun _ => .ok [150])

/-- A loaded model whose invocation always raises. -/
def modelC6 : ModelBehavior := .probaModel (fun _ => .error ())

/-- The recipient of the C6 counterexample: its urgency value is present but
not one of the four recognized levels, so the urgency `index` call inside the
feature encoder raises `ValueError`. -/
def recipC6 : Recipient := { bloodType := some "A+", urgency := some "URGENT" }

/-- The feature vector of two all-default A+ records. -/
def fsC6 : List ℚ :=
  [0, 30, 0, 70, 14, 0, 0, 0, 0, 0, 0, 0, 0, 0,
   0, 30, 0, 70, 1, 0, 0, 0, 0, 0, 0, 0, 0, 0, 0, 0, 0]

/-- The intact donor of the C7 example. -/
def donorC7 : Donor := { bloodType := some "A+" }

/-- The expected response when only the intact C7 donor is submitted. -/
def respC7 : MatchResponse :=
  { requestId := none,
    recipientName := none,
    bloodTypeNeeded := some "A+",
    urgency := none,
    «matches» := [entryC5 "A+" 70],
    totalMatchesFound := 1,
    modelUsed := false,
    timestamp := "T" }

/-- The feature vector of two all-default records. -/
def fsC8 : List ℚ :=
  [0, 30, 0, 70, 14, 0, 0, 0, 0, 0, 0, 0, 0, 0,
   0, 30, 0, 70, 1, 0, 0, 0, 0, 0, 0, 0, 0, 0, 0, 0, 0]

/-! ## Lemmas and claim theorems -/

lemma check_hard_stops_ne_nil (d : Donor) :
    check_hard_stops d ≠ [] ↔ hasHardStop d = true := by
  cases h1 : d.hivStatus <;> cases h2 : d.hepatitisB <;> cases h3 : d.hepatitisC <;>
    cases h4 : d.htlv <;> cases h5 : d.ivDrugUse <;>
    simp [check_hard_stops, hasHardStop, h1, h2, h3, h4, h5]

lemma matchEntry_none_of_hard_stop (model : Option ModelBehavior)
    (r : Recipient) (ct : List String) (d : Donor)
    (h : hasHardStop d = true) : matchEntry model r ct d = none := by
  unfold matchEntry
  by_cases hbt : ¬ optMem d.bloodType ct
  · simp [hbt]
  · simp only [hbt, if_false]
    rw [if_pos ((check_hard_stops_ne_nil d).mpr h)]

lemma matchEntry_none_of_incompatible (model : Option ModelBehavior)
    (r : Recipient) (ct : List String) (d : Donor)
    (h : optMem d.bloodType ct = false) : matchEntry model r ct d = none := by
  unfold matchEntry
  simp [h]

lemma processDonors_skip (model : Option ModelBehavior) (r : Recipient)
    (ct : List String) (d : Donor)
    (h : matchEntry model r ct d = none) (pre post : List RawDonor) :
    processDonors model r ct (pre ++ RawDonor.record d :: post) =
      processDonors model r ct (pre ++ post) := by
  induction pre with
  | nil => simp [processDonors, h]
  | cons x xs ih =>
    cases x with
    | malformed => rfl
    | record d' =>
      simp only [List.cons_append, processDonors, List.append_eq]
      rw [ih]

lemma match_donors_drop (model : Option ModelBehavior) (now : String)
    (r : Recipient) (d : Donor) (pre post : List RawDonor)
    (h : matchEntry model r
      (get_compatible_donor_types (r.bloodType.getD "")) d = none) :
    match_donors model now r (pre ++ RawDonor.record d :: post) =
      match_donors model now r (pre ++ post) := by
  unfold match_donors
  rw [processDonors_skip model r _ d h pre post]

lemma mem_insertDesc (m a : MatchResult) (l : List MatchResult) :
    a ∈ insertDesc m l ↔ a = m ∨ a ∈ l := by
  induction l with
  | nil => simp [insertDesc]
  | cons x xs ih =>
    unfold insertDesc
    by_cases h : x.compatibilityScore ≤ m.compatibilityScore
    · simp [h]
    · simp only [if_neg h, List.mem_cons, ih]
      tauto

lemma insertDesc_perm (m : MatchResult) (l : List MatchResult) :
    List.Perm (insertDesc m l) (m :: l) := by
  induction l with
  | nil => simp [insertDesc]
  | cons x xs ih =>
    unfold insertDesc
    by_cases h : x.compatibilityScore ≤ m.compatibilityScore
    · simp [h]
    · rw [if_neg h]
      exact (ih.cons x).trans (List.Perm.swap m x xs)

lemma sortDesc_perm (l : List MatchResult) : List.Perm (sortDesc l) l := by
  induction l with
  | nil => simp [sortDesc]
  | cons x xs ih =>
    exact (insertDesc_perm x (sortDesc xs)).trans (ih.cons x)

lemma insertDesc_sorted (m : MatchResult) (l : List MatchResult)
    (h : l.Pairwise (fun a b => b.compatibilityScore ≤ a.compatibilityScore)) :
    (insertDesc m l).Pairwise
      (fun a b => b.compatibilityScore ≤ a.compatibilityScore) := by
  induction l with
  | nil => simp [insertDesc]
  | cons x xs ih =>
    rw [List.pairwise_cons] at h
    obtain ⟨hx, hxs⟩ := h
    unfold insertDesc
    by_cases hc : x.compatibilityScore ≤ m.compatibilityScore
    · rw [if_pos hc, List.pairwise_cons]
      constructor
      · intro b hb
        rcases List.mem_cons.mp hb with rfl | hb
        · exact hc
        · exact le_trans (hx b hb) hc
      · rw [List.pairwise_cons]; exact ⟨hx, hxs⟩
    · rw [if_neg hc, List.pairwise_cons]
      push_neg at hc
      constructor
      · intro b hb
        rcases (mem_insertDesc m b xs).mp hb with rfl | hb
        · exact le_of_lt hc
        · exact hx b hb
      · exact ih hxs

lemma sortDesc_sorted (l : List MatchResult) :
    (sortDesc l).Pairwise
      (fun a b => b.compatibilityScore ≤ a.compatibilityScore) := by
  induction l with
  | nil => simp [sortDesc]
  | cons x xs ih => exact insertDesc_sorted x (sortDesc xs) ih

lemma insertDesc_filter (s : ℚ) (m : MatchResult) (l : List MatchResult) :
    (insertDesc m l).filter (fun x => x.compatibilityScore == s) =
      (m :: l).filter (fun x => x.compatibilityScore == s) := by
  induction l with
  | nil => rfl
  | cons x xs ih =>
    unfold insertDesc
    by_cases hc : x.compatibilityScore ≤ m.compatibilityScore
    · rw [if_pos hc]
    · rw [if_neg hc]
      push_neg at hc
      by_cases hm : m.compatibilityScore = s
      · have hx : (x.compatibilityScore == s) = false := by
          rw [beq_eq_false_iff_ne]
          intro hxs
          exact absurd (hxs.trans hm.symm).le (not_le.mpr hc)
        have hm' : (m.compatibilityScore == s) = true := by
          rw [beq_iff_eq]; exact hm
        simp only [List.filter_cons, hx, hm', if_true, Bool.false_eq_true,
          if_false] at ih ⊢
        exact ih
      · have hm' : (m.compatibilityScore == s) = false := by
          rw [beq_eq_false_iff_ne]; exact hm
        by_cases hx : x.compatibilityScore = s
        · have hx' : (x.compatibilityScore == s) = true := by
            rw [beq_iff_eq]; exact hx
          simp only [List.filter_cons, hx', hm', if_true, Bool.false_eq_true,
            if_false] at ih ⊢
          rw [ih]
        · have hx' : (x.compatibilityScore == s) = false := by
            rw [beq_eq_false_iff_ne]; exact hx
          simp only [List.filter_cons, hx', hm', Bool.false_eq_true,
            if_false] at ih ⊢
          exact ih

lemma sortDesc_filter (s : ℚ) (l : List MatchResult) :
    (sortDesc l).filter (fun x => x.compatibilityScore == s) =
      l.filter (fun x => x.compatibilityScore == s) := by
  induction l with
  | nil => rfl
  | cons x xs ih =>
    calc (sortDesc (x :: xs)).filter (fun x => x.compatibilityScore == s)
        = ((x :: sortDesc xs).filter (fun x => x.compatibilityScore == s)) :=
          insertDesc_filter s x (sortDesc xs)
      _ = (x :: xs).filter (fun x => x.compatibilityScore == s) := by
          simp only [List.filter_cons, ih]

lemma floor_le_round_half_even (q : ℚ) : ⌊q⌋ ≤ round_half_even q := by
  unfold round_half_even
  split_ifs <;> omega

lemma round_half_even_le_floor_add_one (q : ℚ) :
    round_half_even q ≤ ⌊q⌋ + 1 := by
  unfold round_half_even
  split_ifs <;> omega

lemma round1_nonneg (q : ℚ) (h : 0 ≤ q) : 0 ≤ round1 q := by
  unfold round1
  have h0 : (0 : ℤ) ≤ ⌊q * 10⌋ := Int.floor_nonneg.mpr (by linarith)
  have h1 : (0 : ℤ) ≤ round_half_even (q * 10) :=
    le_trans h0 (floor_le_round_half_even (q * 10))
  have h2 : (0 : ℚ) ≤ (round_half_even (q * 10) : ℚ) := by exact_mod_cast h1
  positivity

lemma round1_le_100 (q : ℚ) (h : q ≤ 100) : round1 q ≤ 100 := by
  unfold round1
  have hf : ⌊q * 10⌋ ≤ 1000 := by
    have h10 : q * 10 ≤ ((1000 : ℤ) : ℚ) := by push_cast; linarith
    have h11 := Int.floor_le_floor h10
    rwa [Int.floor_intCast] at h11
  by_cases h9 : ⌊q * 10⌋ ≤ 999
  · have h1 : round_half_even (q * 10) ≤ 1000 :=
      le_trans (round_half_even_le_floor_add_one (q * 10)) (by omega)
    have h2 : (round_half_even (q * 10) : ℚ) ≤ 1000 := by exact_mod_cast h1
    linarith
  · have hfq : ⌊q * 10⌋ = 1000 := by omega
    have hr : q * 10 - (⌊q * 10⌋ : ℚ) < 1 / 2 := by
      rw [hfq]
      push_cast
      linarith
    unfold round_half_even
    rw [if_pos hr, hfq]
    push_cast
    norm_num

lemma rule_based_le_100 (d : Donor) (r : Recipient) :
    calculate_rule_based_score d r ≤ 100 := by
  unfold calculate_rule_based_score
  exact min_le_left _ _

lemma rule_based_ge_50 (d : Donor) (r : Recipient) :
    50 ≤ calculate_rule_based_score d r := by
  unfold calculate_rule_based_score
  have h1 : (0 : ℚ) ≤ if d.bloodType = r.bloodType then 20 else 0 := by
    split_ifs <;> norm_num
  have h2 : (0 : ℚ) ≤ if r.rhVariants.C && d.rhVariants.C then 3 else 0 := by
    split_ifs <;> norm_num
  have h3 : (0 : ℚ) ≤ if r.rhVariants.c && d.rhVariants.c then 3 else 0 := by
    split_ifs <;> norm_num
  have h4 : (0 : ℚ) ≤ if r.rhVariants.E && d.rhVariants.E then 3 else 0 := by
    split_ifs <;> norm_num
  have h5 : (0 : ℚ) ≤ if r.rhVariants.e && d.rhVariants.e then 3 else 0 := by
    split_ifs <;> norm_num
  have h6 : (0 : ℚ) ≤ if r.kell && d.kell then 3 else 0 := by
    split_ifs <;> norm_num
  have h7 : (0 : ℚ) ≤ if r.duffy && d.duffy then 3 else 0 := by
    split_ifs <;> norm_num
  have h8 : (0 : ℚ) ≤ if r.kidd && d.kidd then 3 else 0 := by
    split_ifs <;> norm_num
  have h9 : (0 : ℚ) ≤ if d.totalDonations.getD 0 > 5 then 5 else 0 := by
    split_ifs <;> norm_num
  have h10 : (0 : ℚ) ≤
      if r.urgency = some "critical" && d.willingForEmergency then 10 else 0 := by
    split_ifs <;> norm_num
  refine le_min (by norm_num) (by linarith)

lemma matchEntry_score (model : Option ModelBehavior) (r : Recipient)
    (ct : List String) (d : Donor) (m : MatchResult)
    (h : matchEntry model r ct d = some m) :
    m.compatibilityScore = round1 (batchScore model d r) := by
  unfold matchEntry at h
  split_ifs at h
  injection h with h
  subst h
  rfl

lemma processDonors_score_mem (model : Option ModelBehavior) (r : Recipient)
    (ct : List String) (ds : List RawDonor) (l : List MatchResult)
    (hok : processDonors model r ct ds = .ok l) :
    ∀ m ∈ l, ∃ d : Donor, m.compatibilityScore = round1 (batchScore model d r) := by
  induction ds generalizing l with
  | nil =>
    simp only [processDonors] at hok
    injection hok with hok
    subst hok
    intro m hm
    exact absurd hm (List.not_mem_nil m)
  | cons x xs ih =>
    cases x with
    | malformed => simp [processDonors] at hok
    | record d =>
      simp only [processDonors] at hok
      cases he : matchEntry model r ct d with
      | none =>
        rw [he] at hok
        exact ih l hok
      | some m0 =>
        rw [he] at hok
        cases hrec : processDonors model r ct xs with
        | error e => rw [hrec] at hok; cases hok
        | ok tail =>
          rw [hrec] at hok
          injection hok with hok
          subst hok
          intro m hm
          rcases List.mem_cons.mp hm with rfl | hm
          · exact ⟨d, matchEntry_score model r ct d m he⟩
          · exact ih tail hrec m hm

lemma mem_gcdt_recognized (rbt dbt : String)
    (h : dbt ∈ get_compatible_donor_types rbt) :
    dbt ∈ eight_blood_types ∧ rbt ∈ eight_blood_types := by
  simp only [get_compatible_donor_types, BLOOD_COMPATIBILITY, List.mem_map,
    List.mem_filter] at h
  obtain ⟨p, ⟨hp, hc⟩, rfl⟩ := h
  have hc' : rbt ∈ p.2 := List.elem_iff.mp hc
  fin_cases hp <;> simp only [] at hc' <;> fin_cases hc' <;> decide

lemma spec_parseABORh_mem (s : String)
    (h : (spec_parseABORh s).isSome) : s ∈ eight_blood_types := by
  unfold spec_parseABORh at h
  split_ifs at h with h1 h2 h3 h4 h5 h6 h7 h8
  · subst h1; decide
  · subst h2; decide
  · subst h3; decide
  · subst h4; decide
  · subst h5; decide
  · subst h6; decide
  · subst h7; decide
  · subst h8; decide
  · simp at h

lemma spec_permits_recognized (dbt rbt : String)
    (h : spec_classicalPermits dbt rbt = true) :
    dbt ∈ eight_blood_types ∧ rbt ∈ eight_blood_types := by
  unfold spec_classicalPermits at h
  cases hd : spec_parseABORh dbt with
  | none => rw [hd] at h; cases h
  | some vd =>
    cases hr : spec_parseABORh rbt with
    | none =>
      rw [hd, hr] at h
      obtain ⟨a, b, c⟩ := vd
      cases h
    | some vr =>
      exact ⟨spec_parseABORh_mem dbt (by rw [hd]; rfl),
             spec_parseABORh_mem rbt (by rw [hr]; rfl)⟩

lemma gcdt_iff_classical (rbt dbt : String) :
    dbt ∈ get_compatible_donor_types rbt ↔
      spec_classicalPermits dbt rbt = true := by
  by_cases hr : rbt ∈ eight_blood_types
  · by_cases hd : dbt ∈ eight_blood_types
    · fin_cases hr <;> fin_cases hd <;> decide
    · constructor
      · intro h; exact absurd (mem_gcdt_recognized rbt dbt h).1 hd
      · intro h; exact absurd (spec_permits_recognized dbt rbt h).1 hd
  · constructor
    · intro h; exact absurd (mem_gcdt_recognized rbt dbt h).2 hr
    · intro h; exact absurd (spec_permits_recognized dbt rbt h).2 hr

/-- Claim C1: a donor with any permanent-deferral flag set (hivStatus,
hepatitisB, hepatitisC, htlv, ivDrugUse) never appears in the `rankMatches`
output regardless of blood type — dropping that donor from the input list
leaves the output unchanged — and `scorePair` on that donor with a
blood-type-compatible recipient returns compatible=false, score=0, and a
reason listing the triggering conditions (e.g. "HIV positive" for
hivStatus). -/
theorem hard_stop_donor_never_matched :
    ∀ (model : Option ModelBehavior) (now : String) (r : Recipient) (d : Donor),
      hasHardStop d = true →
      (∀ pre post : List RawDonor,
        match_donors model now r (pre ++ RawDonor.record d :: post) =
          match_donors model now r (pre ++ post)) ∧
      (optMem d.bloodType
          (get_compatible_donor_types (r.bloodType.getD "")) = true →
        predict model d r = .ok
          { compatible := false, score := 0,
            reason := some ("Permanent deferral: " ++
              String.intercalate ", " (check_hard_stops d)) } ∧
        (d.hivStatus = true → "HIV positive" ∈ check_hard_stops d) ∧
        (d.hepatitisB = true → "Hepatitis B" ∈ check_hard_stops d) ∧
        (d.hepatitisC = true → "Hepatitis C" ∈ check_hard_stops d) ∧
        (d.htlv = true → "HTLV positive" ∈ check_hard_stops d) ∧
        (d.ivDrugUse = true → "IV drug use history" ∈ check_hard_stops d)) := by
  intro model now r d h
  constructor
  · intro pre post
    exact match_donors_drop model now r d pre post
      (matchEntry_none_of_hard_stop model r _ d h)
  · intro hbt
    refine ⟨?_, ?_, ?_, ?_, ?_, ?_⟩
    · unfold predict
      rw [if_neg (fun hc => hc hbt),
        if_pos ((check_hard_stops_ne_nil d).mpr h)]
    · intro hh; simp [check_hard_stops, hh]
    · intro hh; simp [check_hard_stops, hh]
    · intro hh; simp [check_hard_stops, hh]
    · intro hh; simp [check_hard_stops, hh]
    · intro hh; simp [check_hard_stops, hh]

theorem hard_stop_donor_never_matched_witness :
    match_donors none "2026-01-01T00:00:00"
        { bloodType := some "A+" }
        [RawDonor.record { bloodType := some "O-", hivStatus := true },
         RawDonor.record { bloodType := some "A+" }] =
      match_donors none "2026-01-01T00:00:00" { bloodType := some "A+" }
        [RawDonor.record { bloodType := some "A+" }] ∧
    predict none { bloodType := some "O-", hivStatus := true }
        { bloodType := some "A+" } = .ok
      { compatible := false, score := 0,
        reason := some "Permanent deferral: HIV positive" } ∧
    "HIV positive" ∈
      check_hard_stops { bloodType := some "O-", hivStatus := true } := by
  have h := hard_stop_donor_never_matched none "2026-01-01T00:00:00"
    { bloodType := some "A+" } { bloodType := some "O-", hivStatus := true }
    (by decide)
  have h2 := h.2 (by decide)
  refine ⟨?_, ?_, h2.2.1 rfl⟩
  · simpa using h.1 [] [RawDonor.record { bloodType := some "A+" }]
  · rw [h2.1]
    rfl

/-- Claim C2: the derived compatible-donor-type set agrees with classical
ABO/Rh donation rules on all strings (in particular O- is a compatible donor
type for each of the 8 recipient types and the AB+ recipient accepts all 8
donor types), and any recipient blood type outside the 8 recognized values —
including the empty string used for a missing one — yields the empty set. -/
theorem compatible_types_match_classical_rules :
    (∀ rbt dbt : String,
        dbt ∈ get_compatible_donor_types rbt ↔
          spec_classicalPermits dbt rbt = true) ∧
    (∀ rbt : String, rbt ∈ eight_blood_types →
        "O-" ∈ get_compatible_donor_types rbt) ∧
    get_compatible_donor_types "AB+" = eight_blood_types ∧
    (∀ rbt : String, rbt ∉ eight_blood_types →
        get_compatible_donor_types rbt = []) ∧
    get_compatible_donor_types "" = [] := by
  refine ⟨gcdt_iff_classical, ?_, by decide, ?_, by decide⟩
  · intro rbt h
    fin_cases h <;> decide
  · intro rbt h
    rw [List.eq_nil_iff_forall_not_mem]
    intro dbt hd
    exact h (mem_gcdt_recognized rbt dbt hd).2

theorem compatible_types_match_classical_rules_witness :
    ("O-" ∈ get_compatible_donor_types "A+" ↔
      spec_classicalPermits "O-" "A+" = true) ∧
    "O-" ∈ get_compatible_donor_types "B-" ∧
    get_compatible_donor_types "H-null" = [] := by
  have h := compatible_types_match_classical_rules
  exact ⟨h.1 "A+" "O-", h.2.1 "B-" (by decide), h.2.2.2.1 "H-null" (by decide)⟩

/-- Claim C4: for every donor/recipient pair the rule-based score equals the
spec's reference definition (50 base, +20 exact match, +3 per shared antigen
among C/c/E/e, +3 each for shared kell/duffy/kidd, +5 for more than 5 prior
donations, +10 for critical urgency with an emergency-willing donor, clamped
to [0,100]); an exact blood-type match with no other bonuses scores exactly
70. -/
theorem rule_based_score_matches_reference :
    (∀ (d : Donor) (r : Recipient),
        calculate_rule_based_score d r = spec_rule_based_score d r) ∧
    (∀ (d : Donor) (r : Recipient),
        d.bloodType = r.bloodType →
        (r.rhVariants.C && d.rhVariants.C) = false →
        (r.rhVariants.c && d.rhVariants.c) = false →
        (r.rhVariants.E && d.rhVariants.E) = false →
        (r.rhVariants.e && d.rhVariants.e) = false →
        (r.kell && d.kell) = false →
        (r.duffy && d.duffy) = false →
        (r.kidd && d.kidd) = false →
        ¬ (d.totalDonations.getD 0 > 5) →
        ((r.urgency = some "critical" : Bool) && d.willingForEmergency) = false →
        calculate_rule_based_score d r = 70) := by
  constructor
  · intro d r
    have h := rule_based_ge_50 d r
    unfold calculate_rule_based_score at h
    unfold calculate_rule_based_score spec_rule_based_score
    rw [max_eq_right (le_trans (by norm_num) h)]
  · intro d r h0 h1 h2 h3 h4 h5 h6 h7 h8 h9
    simp only [calculate_rule_based_score, h0, h1, h2, h3, h4, h5, h6, h7, h8,
      h9, if_true, if_false, Bool.false_eq_true, eq_self_iff_true]
    norm_num

theorem rule_based_score_matches_reference_witness :
    calculate_rule_based_score { bloodType := some "A+" }
      { bloodType := some "A+" } = 70 := by
  exact rule_based_score_matches_reference.2
    { bloodType := some "A+" } { bloodType := some "A+" }
    rfl rfl rfl rfl rfl rfl rfl rfl (by norm_num) rfl

/-- Claim C5: the matches list returned by `rankMatches` is the stable
descending sort of the per-donor entries produced in input order: it is
sorted non-increasingly by compatibilityScore, is a permutation of the
in-input-order entry list, and filtering both lists at any score value gives
identical lists (so equal-score entries keep their input-relative order). -/
theorem rank_matches_sorted_and_stable :
    ∀ (model : Option ModelBehavior) (now : String) (r : Recipient)
      (ds : List RawDonor) (resp : MatchResponse),
      match_donors model now r ds = .ok resp →
      ∃ pre : List MatchResult,
        processDonors model r
          (get_compatible_donor_types (r.bloodType.getD "")) ds = .ok pre ∧
        resp.«matches» = sortDesc pre ∧
        List.Perm resp.«matches» pre ∧
        resp.«matches».Pairwise
          (fun a b => b.compatibilityScore ≤ a.compatibilityScore) ∧
        (∀ s : ℚ,
          resp.«matches».filter (fun x => x.compatibilityScore == s) =
            pre.filter (fun x => x.compatibilityScore == s)) := by
  intro model now r ds resp h
  unfold match_donors at h
  cases hp : processDonors model r
      (get_compatible_donor_types (r.bloodType.getD "")) ds with
  | error e => rw [hp] at h; cases h
  | ok pre =>
    rw [hp] at h
    injection h with h
    subst h
    exact ⟨pre, rfl, rfl, sortDesc_perm pre, sortDesc_sorted pre,
      fun s => sortDesc_filter s pre⟩

theorem rank_matches_sorted_and_stable_witness :
    respC5.«matches».Pairwise
      (fun a b => b.compatibilityScore ≤ a.compatibilityScore) ∧
    respC5.«matches».filter (fun x => x.compatibilityScore == (50 : ℚ)) =
      preC5.filter (fun x => x.compatibilityScore == (50 : ℚ)) := by
  obtain ⟨pre, hpre, hm, hperm, hsorted, hfilter⟩ :=
    rank_matches_sorted_and_stable none "T" { bloodType := some "A+" }
      donorsC5 respC5 (by
        simp [match_donors, processDonors, matchEntry, batchScore,
          calculate_rule_based_score, check_hard_stops,
          check_temporary_deferrals, optMem, get_compatible_donor_types,
          BLOOD_COMPATIBILITY, sortDesc, insertDesc, pyOr, pyStr, round1,
          round_half_even, donorsC5, respC5, entryC5]
        norm_num [insertDesc])
  have hcomp : processDonors none
      ({ bloodType := some "A+" } : Recipient)
      (get_compatible_donor_types
        (({ bloodType := some "A+" } : Recipient).bloodType.getD ""))
      donorsC5 = .ok preC5 := by
    simp [processDonors, matchEntry, batchScore, calculate_rule_based_score,
      check_hard_stops, check_temporary_deferrals, optMem,
      get_compatible_donor_types, BLOOD_COMPATIBILITY, pyOr, pyStr, round1,
      round_half_even, donorsC5, preC5, entryC5]
    norm_num
  rw [hcomp] at hpre
  injection hpre with hpre
  subst hpre
  exact ⟨hsorted, hfilter 50⟩

/-- Claim C9 counterexample: the response embeds the wall-clock reading
(`str(np.datetime64('now'))`), so two calls with identical recipient and
donor inputs made at different instants produce different responses — the
output is not byte-identical, the timestamp field differs. -/
theorem rank_matches_not_byte_identical :
    match_donors none "2026-01-01T00:00:00" { bloodType := some "A+" }
        donorsC9 ≠
      match_donors none "2026-01-01T00:00:01" { bloodType := some "A+" }
        donorsC9 ∧
    match_donors none "2026-01-01T00:00:00" { bloodType := some "A+" }
        donorsC9 = .ok (respC9 "2026-01-01T00:00:00") ∧
    match_donors none "2026-01-01T00:00:01" { bloodType := some "A+" }
        donorsC9 = .ok (respC9 "2026-01-01T00:00:01") := by
  have h1 : match_donors none "2026-01-01T00:00:00" { bloodType := some "A+" }
      donorsC9 = .ok (respC9 "2026-01-01T00:00:00") := by
    simp [match_donors, processDonors, matchEntry, batchScore,
      calculate_rule_based_score, check_hard_stops, check_temporary_deferrals,
      optMem, get_compatible_donor_types, BLOOD_COMPATIBILITY, sortDesc,
      insertDesc, pyOr, pyStr, round1, round_half_even, donorsC9, respC9,
      entryC5]
    norm_num
  have h2 : match_donors none "2026-01-01T00:00:01" { bloodType := some "A+" }
      donorsC9 = .ok (respC9 "2026-01-01T00:00:01") := by
    simp [match_donors, processDonors, matchEntry, batchScore,
      calculate_rule_based_score, check_hard_stops, check_temporary_deferrals,
      optMem, get_compatible_donor_types, BLOOD_COMPATIBILITY, sortDesc,
      insertDesc, pyOr, pyStr, round1, round_half_even, donorsC9, respC9,
      entryC5]
    norm_num
  refine ⟨?_, h1, h2⟩
  rw [h1, h2]
  intro h
  injection h with h
  have ht := congrArg MatchResponse.timestamp h
  simp [respC9] at ht

/-- Claim C9 (amended): with the wall-clock reading made an explicit input,
two `rankMatches` calls with identical recipient and donor inputs and
unchanged model state agree on every response field except `timestamp`,
which records the wall-clock instant of the call. -/
theorem rank_matches_deterministic_up_to_timestamp :
    ∀ (model : Option ModelBehavior) (now1 now2 : String) (r : Recipient)
      (ds : List RawDonor),
      (match_donors model now1 r ds).map
          (fun resp => { resp with timestamp := "" }) =
        (match_donors model now2 r ds).map
          (fun resp => { resp with timestamp := "" }) := by
  intro model now1 now2 r ds
  unfold match_donors
  cases hp : processDonors model r
      (get_compatible_donor_types (r.bloodType.getD "")) ds <;> rfl

/-- Claim C3 counterexample: the `rankMatches` path applies no clamp to a
learned-model score — a model predicting the raw value 150 yields a match
whose compatibilityScore is 150, outside [0,100] (the `scorePair` path would
have clamped it). -/
theorem match_path_score_can_exceed_100 :
    (match_donors (some modelC3) "T" { bloodType := some "A+" }
        [RawDonor.record { bloodType := some "A+" }]).map
      (fun resp => resp.«matches».map (fun m => m.compatibilityScore)) =
      .ok [150] ∧
    ¬ ((150 : ℚ) ≤ 100) := by
  constructor
  · simp [match_donors, processDonors, matchEntry, batchScore, mlScore,
      prepare_features, urgencyIndex, urgency_levels, donorFeatures,
      recipientFeatures, bloodTypeFeature, blood_types, modelC3,
      calculate_rule_based_score, check_hard_stops, check_temporary_deferrals,
      optMem, get_compatible_donor_types, BLOOD_COMPATIBILITY, sortDesc,
      insertDesc, pyOr, pyStr, round1, round_half_even]
    norm_num
    rfl
  · norm_num

/-- Claim C3 (amended): every `scorePair` outcome is clamped to [0,100], and
every rule-based score lies in [0,100] — so the whole `rankMatches` output
lies in [0,100] whenever no learned model is loaded; a learned-model score on
the `rankMatches` path, however, is not clamped (see the counterexample). -/
theorem scores_within_range_where_clamped :
    (∀ (model : Option ModelBehavior) (d : Donor) (r : Recipient)
        (resp : PredictResponse),
        predict model d r = .ok resp →
        0 ≤ resp.score ∧ resp.score ≤ 100) ∧
    (∀ (d : Donor) (r : Recipient),
        0 ≤ calculate_rule_based_score d r ∧
        calculate_rule_based_score d r ≤ 100) ∧
    (∀ (now : String) (r : Recipient) (ds : List RawDonor)
        (resp : MatchResponse),
        match_donors none now r ds = .ok resp →
        ∀ m ∈ resp.«matches»,
          0 ≤ m.compatibilityScore ∧ m.compatibilityScore ≤ 100) := by
  refine ⟨?_, ?_, ?_⟩
  · intro model d r resp h
    unfold predict at h
    split_ifs at h
    all_goals first
      | (injection h with h
         subst h
         norm_num)
      | (cases hs : predictScore model d r with
         | error e => rw [hs] at h; cases h
         | ok s =>
           rw [hs] at h
           injection h with h
           subst h
           exact ⟨le_min (by norm_num) (le_max_left 0 s), min_le_left _ _⟩)
  · intro d r
    exact ⟨le_trans (by norm_num) (rule_based_ge_50 d r), rule_based_le_100 d r⟩
  · intro now r ds resp h m hm
    unfold match_donors at h
    cases hp : processDonors none r
        (get_compatible_donor_types (r.bloodType.getD "")) ds with
    | error e => rw [hp] at h; cases h
    | ok pre =>
      rw [hp] at h
      injection h with h
      subst h
      have hmem : m ∈ pre := (sortDesc_perm pre).subset hm
      obtain ⟨d0, hd0⟩ := processDonors_score_mem none r _ ds pre hp m hmem
      have hrb : batchScore none d0 r = calculate_rule_based_score d0 r := rfl
      rw [hd0, hrb]
      exact ⟨round1_nonneg _ (le_trans (by norm_num) (rule_based_ge_50 d0 r)),
        round1_le_100 _ (rule_based_le_100 d0 r)⟩

theorem scores_within_range_where_clamped_witness :
    predict none { bloodType := some "O-" } { bloodType := some "A+" } =
      .ok { compatible := true, score := 50, warnings := some [],
            model_used := some false } ∧
    (0 ≤ (50 : ℚ) ∧ (50 : ℚ) ≤ 100) ∧
    (0 ≤ calculate_rule_based_score { bloodType := some "O-" }
        { bloodType := some "A+" } ∧
      calculate_rule_based_score { bloodType := some "O-" }
        { bloodType := some "A+" } ≤ 100) := by
  have hpred : predict none { bloodType := some "O-" }
      { bloodType := some "A+" } =
      .ok { compatible := true, score := 50, warnings := some [],
            model_used := some false } := by
    simp [predict, predictScore, calculate_rule_based_score, check_hard_stops,
      check_temporary_deferrals, optMem, get_compatible_donor_types,
      BLOOD_COMPATIBILITY]
    norm_num
  have h1 := scores_within_range_where_clamped.1 none
    { bloodType := some "O-" } { bloodType := some "A+" }
    { compatible := true, score := 50, warnings := some [],
      model_used := some false } hpred
  have h2 := scores_within_range_where_clamped.2.1
    { bloodType := some "O-" } { bloodType := some "A+" }
  exact ⟨hpred, h1, h2⟩

/-- Claim C6 counterexample: on the `scorePair` path the feature encoder runs
outside the learned-model `try`, so a failure while building the feature
vector (unrecognized urgency) is NOT replaced by the rule-based score — the
request fails with the request-level error — although without a model the
same pair scores fine. -/
theorem feature_failure_escapes_scorePair :
    predict (some modelC6) { bloodType := some "A+" } recipC6 = .error () ∧
    predict none { bloodType := some "A+" } recipC6 =
      .ok { compatible := true, score := 70, warnings := some [],
            model_used := some false } := by
  constructor
  · simp [predict, predictScore, prepare_features, urgencyIndex,
      urgency_levels, optMem, get_compatible_donor_types, BLOOD_COMPATIBILITY,
      check_hard_stops, modelC6, recipC6]
  · simp [predict, predictScore, calculate_rule_based_score, check_hard_stops,
      check_temporary_deferrals, optMem, get_compatible_donor_types,
      BLOOD_COMPATIBILITY, recipC6]
    norm_num

/-- Claim C6 (amended): on the `rankMatches` path every learned-path failure
— including one while building the feature vector — is caught and replaced by
the rule-based score; on the `scorePair` path this holds for failures of the
model invocation itself, but a failure while building the feature vector is
not caught locally and surfaces as the request-level error instead of a
score. -/
theorem learned_path_fallback :
    (∀ (mb : ModelBehavior) (d : Donor) (r : Recipient),
        prepare_features d r = .error () →
        batchScore (some mb) d r = calculate_rule_based_score d r) ∧
    (∀ (mb : ModelBehavior) (d : Donor) (r : Recipient) (fs : List ℚ),
        prepare_features d r = .ok fs →
        mlScore mb fs = .error () →
        batchScore (some mb) d r = calculate_rule_based_score d r) ∧
    (∀ (mb : ModelBehavior) (d : Donor) (r : Recipient) (fs : List ℚ),
        optMem d.bloodType
          (get_compatible_donor_types (r.bloodType.getD "")) = true →
        check_hard_stops d = [] →
        prepare_features d r = .ok fs →
        mlScore mb fs = .error () →
        predict (some mb) d r = .ok
          { compatible := true,
            score := min 100 (max 0 (calculate_rule_based_score d r)),
            warnings := some (check_temporary_deferrals d),
            model_used := some true }) := by
  refine ⟨?_, ?_, ?_⟩
  · intro mb d r h
    simp [batchScore, h]
  · intro mb d r fs h1 h2
    simp [batchScore, h1, h2]
  · intro mb d r fs hbt hhs h1 h2
    unfold predict
    rw [if_neg (fun hc => hc hbt), if_neg (by simp [hhs])]
    simp [predictScore, h1, h2]

theorem learned_path_fallback_witness :
    batchScore (some modelC6) { bloodType := some "A+" } recipC6 =
      calculate_rule_based_score { bloodType := some "A+" } recipC6 ∧
    predict (some (ModelBehavior.predictModel (fun _ => .error ())))
        { bloodType := some "A+" } { bloodType := some "A+" } = .ok
      { compatible := true,
        score := min 100 (max 0 (calculate_rule_based_score
          { bloodType := some "A+" } { bloodType := some "A+" })),
        warnings := some (check_temporary_deferrals { bloodType := some "A+" }),
        model_used := some true } := by
  have hindex : urgency_levels.indexOf "standard" = 0 := rfl
  have hpf : prepare_features ({ bloodType := some "A+" } : Donor)
      ({ bloodType := some "A+" } : Recipient) = .ok fsC6 := by
    have hbt : blood_types.indexOf "A+" = 0 := rfl
    simp [prepare_features, urgencyIndex, urgency_levels, donorFeatures,
      recipientFeatures, bloodTypeFeature, blood_types, optMem, fsC6, hindex,
      hbt]
  have hml : mlScore (ModelBehavior.predictModel (fun _ => .error ())) fsC6 =
      .error () := rfl
  constructor
  · refine learned_path_fallback.1 modelC6 { bloodType := some "A+" } recipC6 ?_
    simp [prepare_features, urgencyIndex, urgency_levels, recipC6]
  · exact learned_path_fallback.2.2
      (ModelBehavior.predictModel (fun _ => .error ()))
      { bloodType := some "A+" } { bloodType := some "A+" } fsC6
      (by decide) (by decide) hpf hml

lemma processDonors_error_of_malformed (model : Option ModelBehavior)
    (r : Recipient) (ct : List String) (ds : List RawDonor)
    (h : RawDonor.malformed ∈ ds) :
    processDonors model r ct ds = .error () := by
  induction ds with
  | nil => cases h
  | cons x xs ih =>
    cases x with
    | malformed => rfl
    | record d =>
      have hx : RawDonor.malformed ∈ xs := by
        rcases List.mem_cons.mp h with h' | h'
        · cases h'
        · exact h'
      simp only [processDonors, ih hx]
      cases matchEntry model r ct d <;> rfl

/-- Claim C7 counterexample: a donor-list element that is not a mapping
raises at `donor.get('bloodType')`, which nothing below the request boundary
catches — the whole ranking is aborted with the request-level error and the
remaining (intact) donor is not ranked, instead of the malformed record being
skipped. -/
theorem malformed_donor_aborts_whole_ranking :
    match_donors none "T" { bloodType := some "A+" }
        [RawDonor.record donorC7, RawDonor.malformed] = .error () ∧
    match_donors none "T" { bloodType := some "A+" }
        [RawDonor.record donorC7] = .ok respC7 := by
  constructor
  · simp [match_donors, processDonors, matchEntry, batchScore,
      calculate_rule_based_score, check_hard_stops, check_temporary_deferrals,
      optMem, get_compatible_donor_types, BLOOD_COMPATIBILITY, donorC7]
  · simp [match_donors, processDonors, matchEntry, batchScore,
      calculate_rule_based_score, check_hard_stops, check_temporary_deferrals,
      optMem, get_compatible_donor_types, BLOOD_COMPATIBILITY, sortDesc,
      insertDesc, pyOr, pyStr, round1, round_half_even, donorC7, respC7,
      entryC5]
    norm_num

/-- Claim C7 (amended): a donor record that is a mapping with a missing
bloodType never raises and is excluded individually — dropping it leaves the
ranking of the remaining donors unchanged — but a list element that is not a
mapping makes the whole `rankMatches` request fail with the request-level
error, wherever it appears in the list. -/
theorem bad_donor_record_handling :
    (∀ (model : Option ModelBehavior) (now : String) (r : Recipient)
        (pre post : List RawDonor) (d : Donor),
        d.bloodType = none →
        match_donors model now r (pre ++ RawDonor.record d :: post) =
          match_donors model now r (pre ++ post)) ∧
    (∀ (model : Option ModelBehavior) (now : String) (r : Recipient)
        (ds : List RawDonor),
        RawDonor.malformed ∈ ds →
        match_donors model now r ds = .error ()) := by
  constructor
  · intro model now r pre post d h
    refine match_donors_drop model now r d pre post
      (matchEntry_none_of_incompatible model r _ d ?_)
    rw [h]
    rfl
  · intro model now r ds h
    unfold match_donors
    rw [processDonors_error_of_malformed model r _ ds h]

theorem bad_donor_record_handling_witness :
    match_donors none "T" { bloodType := some "A+" }
        [RawDonor.record { bloodType := none }, RawDonor.record donorC7] =
      match_donors none "T" { bloodType := some "A+" }
        [RawDonor.record donorC7] ∧
    match_donors none "T" { bloodType := some "A+" }
        [RawDonor.record donorC7, RawDonor.malformed] = .error () := by
  have h := bad_donor_record_handling
  constructor
  · simpa using h.1 none "T" { bloodType := some "A+" } []
      [RawDonor.record donorC7] { bloodType := none } rfl
  · exact h.2 none "T" { bloodType := some "A+" }
      [RawDonor.record donorC7, RawDonor.malformed] (by simp)

/-- Claim C8 counterexample: the feature dict has 14 donor entries and 17
recipient entries, so the encoded vector has 31 scalars, not 27. -/
theorem feature_vector_has_31_entries :
    (prepare_features { } { }).map List.length = .ok 31 ∧ (31 : ℕ) ≠ 27 := by
  constructor
  · rfl
  · decide

/-- Claim C8 (amended): the feature encoder produces a deterministic,
fixed-order numeric vector of exactly 31 scalars — the 14 donor-derived
entries followed by the 17 recipient-derived entries — with blood type
encoded as the ordinal index in the fixed 8-element ordering and an
unknown or missing blood type encoded as 0. -/
theorem feature_vector_structure :
    (∀ (d : Donor) (r : Recipient) (fs : List ℚ),
        prepare_features d r = .ok fs →
        ∃ u : ℚ, urgencyIndex r.urgency = .ok u ∧
          fs = donorFeatures d ++ recipientFeatures r u ∧
          fs.length = 31) ∧
    (∀ d : Donor, (donorFeatures d).length = 14) ∧
    (∀ (r : Recipient) (u : ℚ), (recipientFeatures r u).length = 17) ∧
    bloodTypeFeature none = 0 ∧
    (∀ s : String, s ∉ blood_types → bloodTypeFeature (some s) = 0) ∧
    (∀ s : String, s ∈ blood_types →
        bloodTypeFeature (some s) = (blood_types.indexOf s : ℚ)) := by
  refine ⟨?_, ?_, ?_, rfl, ?_, ?_⟩
  · intro d r fs h
    unfold prepare_features at h
    cases hu : urgencyIndex r.urgency with
    | error e => rw [hu] at h; cases h
    | ok u =>
      rw [hu] at h
      injection h with h
      subst h
      exact ⟨u, rfl, rfl, by simp [donorFeatures, recipientFeatures]⟩
  · intro d; simp [donorFeatures]
  · intro r u; simp [recipientFeatures]
  · intro s h
    have hc : blood_types.elem s = false := by
      cases hcc : blood_types.elem s
      · rfl
      · exact absurd (List.elem_iff.mp hcc) h
    simp [bloodTypeFeature, optMem, List.contains, hc]
    intro hmem
    exact absurd hmem h
  · intro s h
    have hc : blood_types.elem s = true := List.elem_iff.mpr h
    simp [bloodTypeFeature, optMem, List.contains, hc]
    intro hn
    exact absurd h hn

theorem feature_vector_structure_witness :
    prepare_features { } { } = .ok fsC8 ∧ fsC8.length = 31 ∧
    (donorFeatures ({ } : Donor)).length = 14 ∧
    bloodTypeFeature (some "O-") = 7 ∧
    bloodTypeFeature (some "Rh") = 0 := by
  have hindex : urgency_levels.indexOf "standard" = 0 := rfl
  have hpf : prepare_features { } { } = .ok fsC8 := by
    simp [prepare_features, urgencyIndex, urgency_levels, donorFeatures,
      recipientFeatures, bloodTypeFeature, blood_types, optMem, fsC8, hindex]
  obtain ⟨u, hu, heq, hlen⟩ := feature_vector_structure.1 { } { } fsC8 hpf
  refine ⟨hpf, hlen, feature_vector_structure.2.1 { }, ?_, ?_⟩
  · have h := feature_vector_structure.2.2.2.2.2 "O-" (by decide)
    have hi : blood_types.indexOf "O-" = 7 := rfl
    rw [h, hi]
    norm_num
  · exact feature_vector_structure.2.2.2.2.1 "Rh" (by decide)

/-- Claim C10 counterexample: a donor record without a bloodType field is not
treated as the documented default O+ — it is classified blood-type
incompatible and excluded everywhere, even when the recipient (AB+) accepts
O+ donors, while an actual O+ donor matches. -/
theorem missing_blood_type_not_defaulted_to_O_plus :
    predict none { } { bloodType := some "AB+" } = .ok
      { compatible := false, score := 0,
        reason := some "Blood type incompatible" } ∧
    (match_donors none "T" { bloodType := some "AB+" }
        [RawDonor.record { }]).map (fun resp => resp.«matches») = .ok [] ∧
    "O+" ∈ get_compatible_donor_types "AB+" ∧
    (match_donors none "T" { bloodType := some "AB+" }
        [RawDonor.record { bloodType := some "O+" }]).map
      (fun resp => resp.«matches».length) = .ok 1 := by
  refine ⟨?_, ?_, by decide, ?_⟩
  · simp [predict, optMem, get_compatible_donor_types, BLOOD_COMPATIBILITY]
  · simp [match_donors, processDonors, matchEntry, optMem,
      get_compatible_donor_types, BLOOD_COMPATIBILITY, sortDesc]
    rfl
  · simp [match_donors, processDonors, matchEntry, batchScore,
      calculate_rule_based_score, check_hard_stops, check_temporary_deferrals,
      optMem, get_compatible_donor_types, BLOOD_COMPATIBILITY, sortDesc,
      insertDesc, pyOr, pyStr, round1, round_half_even]
    norm_num
    rfl

/-- Claim C10 (amended): a donor record with an absent bloodType never
raises, but every engine operation treats it as blood-type incompatible
rather than as an O+ donor: `scorePair` reports incompatibility,
`rankMatches` excludes it (dropping it leaves the output unchanged), and the
feature encoder encodes the missing blood type as index 0. -/
theorem missing_blood_type_treated_as_incompatible :
    (∀ (model : Option ModelBehavior) (d : Donor) (r : Recipient),
        d.bloodType = none →
        predict model d r = .ok
          { compatible := false, score := 0,
            reason := some "Blood type incompatible" }) ∧
    (∀ (model : Option ModelBehavior) (now : String) (r : Recipient)
        (pre post : List RawDonor) (d : Donor),
        d.bloodType = none →
        match_donors model now r (pre ++ RawDonor.record d :: post) =
          match_donors model now r (pre ++ post)) ∧
    (∀ d : Donor, d.bloodType = none → bloodTypeFeature d.bloodType = 0) := by
  refine ⟨?_, ?_, ?_⟩
  · intro model d r h
    have hc : ¬ (optMem d.bloodType
        (get_compatible_donor_types (r.bloodType.getD "")) = true) := by
      rw [h]
      simp [optMem]
    unfold predict
    rw [if_pos hc]
  · intro model now r pre post d h
    refine match_donors_drop model now r d pre post
      (matchEntry_none_of_incompatible model r _ d ?_)
    rw [h]
    rfl
  · intro d h
    rw [h]
    rfl

theorem missing_blood_type_treated_as_incompatible_witness :
    predict none { } { bloodType := some "AB+" } = .ok
      { compatible := false, score := 0,
        reason := some "Blood type incompatible" } ∧
    match_donors none "T" { bloodType := some "AB+" }
        [RawDonor.record { }, RawDonor.record { bloodType := some "O+" }] =
      match_donors none "T" { bloodType := some "AB+" }
        [RawDonor.record { bloodType := some "O+" }] ∧
    bloodTypeFeature (none : Option String) = 0 := by
  have h := missing_blood_type_treated_as_incompatible
  refine ⟨h.1 none { } { bloodType := some "AB+" } rfl, ?_,
    h.2.2 { } rfl⟩
  simpa using h.2.1 none "T" { bloodType := some "AB+" } []
    [RawDonor.record { bloodType := some "O+" }] { } rfl
